import Mathlib

/-!
Verification development for the Sanitas clinical patient-record repository.

The repository is a React frontend plus serverless backend handlers. We give a
shallow embedding of the code the claims concern:

* a small model of JavaScript values (`JsVal`), truthiness and field access,
  used wherever the source code relies on JS falsiness or dynamic fields;
* the frontend API client functions from the data layer bundled with
  `sanitas_frontend/vite.config.js`: `searchPatient`, `checkCui`,
  `submitPatientData` (outbound calls are modelled by passing the server's
  behaviour as an explicit argument);
* the `SearchPatientView` search-button logic and the `PatientForm`
  validation from `sanitas_frontend/src/views/SearchPatientView/index.jsx`;
* the `GetGeneralStudentInfo` backend handler from
  `sanitas_backend/src/handlers/GetGeneralStudentInfo/get-general-student-info.mjs`,
  with the environment (which database steps fail, what rows exist) passed
  explicitly and the connection-release count tracked;
* models of the `POST /patient` and `GET /patient/surgical-history/{id}`
  endpoints, whose handler code is not part of the sources here (only their
  integration tests are); these are written from the specification's words
  and marked as such.
-/

namespace Sanitas

/-! ## JavaScript value model -/

/-- A small model of JavaScript runtime values, sufficient for the dynamic
field accesses, truthiness tests and object literals the embedded code uses. -/
inductive JsVal where
  | undefined : JsVal
  | null : JsVal
  | bool : Bool → JsVal
  | num : Int → JsVal
  | str : String → JsVal
  | arr : List JsVal → JsVal
  | obj : List (String × JsVal) → JsVal

/-- JavaScript truthiness of a value (`undefined`, `null`, `false`, `0` and
`""` are falsy; arrays and objects are always truthy). -/
def jsTruthy : JsVal → Bool
  | .undefined => false
  | .null => false
  | .bool b => b
  | .num n => decide (n ≠ 0)
  | .str s => decide (s ≠ "")
  | .arr _ => true
  | .obj _ => true

/-- First-match key lookup in a JS object literal's field list; a missing key
reads as `undefined`, as in JavaScript. -/
def lookupKey : List (String × JsVal) → String → JsVal
  | [], _ => .undefined
  | (k, v) :: rest, key => if k = key then v else lookupKey rest key

/-- `getField v k` models the JavaScript property read `v.k` (on a
non-object it yields `undefined`; the embedded code never reads properties
of primitives where it matters). -/
def getField : JsVal → String → JsVal
  | .obj fields, key => lookupKey fields key
  | _, _ => .undefined

/-- The JavaScript strict comparison `v === null`. Note `undefined === null`
is `false`. -/
def jsStrictEqNull : JsVal → Bool
  | .null => true
  | _ => false

/-- JS falsiness of an optional string-valued field: the field is absent
(`undefined`) or the empty string. -/
def jsFalsyOptStr : Option String → Bool
  | none => true
  | some s => decide (s = "")

/-! ## Frontend API client (data layer in `sanitas_frontend`)

Outbound HTTP is modelled by passing the server's behaviour as an
argument: `Except` failure models a thrown/rejected axios call. Each client
function is then a total Lean function from its inputs and the server's
behaviour to the JS value it returns, or an `Except.error` carrying the
message of the `Error` it throws. -/

/-- A raw patient record as received from the search endpoint; `none` models
an absent (`undefined`) field. -/
structure RawPatient where
  id : Option String
  nombres : Option String
  apellidos : Option String

/-- A mapped search preview: `id` plus display `names`. -/
structure Preview where
  id : String
  names : String

/-- The body of the arrow function inside `searchPatient`'s
`response.data.map`: a falsy `id`, `nombres` or `apellidos` throws; otherwise
the preview `\x7bid, names: nombres ++ " " ++ apellidos\x7d` is produced. -/
def mapRecord (r : RawPatient) : Except String Preview :=
  if jsFalsyOptStr r.id then .error "Received patient has no `id`!"
  else if jsFalsyOptStr r.nombres then .error "Received patient has no `names`!"
  else if jsFalsyOptStr r.apellidos then .error "Received patient has no `apellidos`!"
  else .ok ⟨r.id.getD "", r.nombres.getD "" ++ " " ++ r.apellidos.getD ""⟩

/-- `Array.prototype.map` with a throwing callback: the first throw aborts
the whole map, discarding any partial results. -/
def mapRecords : List RawPatient → Except String (List Preview)
  | [] => .ok []
  | r :: rs =>
    match mapRecord r with
    | .error m => .error m
    | .ok p =>
      match mapRecords rs with
      | .error m => .error m
      | .ok ps => .ok (p :: ps)

/-- Serialization of a preview into the JS object pushed into the result. -/
def previewToJs (p : Preview) : JsVal :=
  .obj [("id", .str p.id), ("names", .str p.names)]

/-- `searchPatient` from the data layer. The argument models the axios POST
to `/patient/search`: `Except.error` is a rejected request (any axios
failure), `Except.ok rows` is `response.data`. The outer try/catch converts
every throw into `\x7berror\x7d`, so the function itself is total. -/
def searchPatient (resp : Except String (List RawPatient)) : JsVal :=
  match resp with
  | .error _ => .obj [("error", .str "API ERROR")]
  | .ok rows =>
    match mapRecords rows with
    | .error m => .obj [("error", .str m)]
    | .ok ps => .obj [("result", .arr (ps.map previewToJs))]

/-- Shape test for the client contract `\x7bresult\x7d`-or-`\x7berror\x7d`:
a single-key object whose key is `result` or `error`. -/
def isResultOrErrorShape : JsVal → Bool
  | .obj [(k, _)] => k = "result" || k = "error"
  | _ => false

/-- `checkCui` from the data layer: on a successful GET to
`/check-cui/\x7bcui\x7d` it returns `\x7bexists: response.data.exists, cui\x7d`;
on any failure it throws `Error("Error fetching CUI:")` (the second argument
to the `Error` constructor is not an options object, so it is dropped). -/
def checkCui (cui : String) (resp : Except String JsVal) : Except String JsVal :=
  match resp with
  | .ok data => .ok (.obj [("exists", getField data "exists"), ("cui", .str cui)])
  | .error _ => .error "Error fetching CUI:"

/-- The patient form state in `AddPatientView` / the patient data passed to
`submitPatientData`: the object's keys are exactly `cui`, `names`,
`surnames`, `sex`, `birthDate` (initial state plus the spread updates in
`handleChange` and `handleGenderChange`). `sex` starts as JS `null` and the
radio buttons set it to the strings `"F"` or `"M"`. -/
structure FormState where
  cui : String
  names : String
  surnames : String
  sex : JsVal
  birthDate : String

/-- The JS object the form state denotes; note there is no `isWoman` key. -/
def formStateToJs (s : FormState) : JsVal :=
  .obj [("cui", .str s.cui), ("names", .str s.names), ("surnames", .str s.surnames),
        ("sex", s.sex), ("birthDate", .str s.birthDate)]

/-- The request body `submitPatientData` POSTs to `/patient`:
`esMujer` is computed as `patientData.sex ? "F" : "M"`. -/
def submitBody (pd : FormState) : JsVal :=
  .obj [("cui", .str pd.cui), ("nombres", .str pd.names), ("apellidos", .str pd.surnames),
        ("esMujer", .str (if jsTruthy pd.sex then "F" else "M")),
        ("fechaNacimiento", .str pd.birthDate)]

/-- The ways the axios POST in `submitPatientData` can fail:
`withResponse data` is an error with `error.response.data = data`;
`requestOnly` has `error.request` but no response; `setupFailure` is any
other failure. -/
inductive AxiosFailure where
  | withResponse : JsVal → AxiosFailure
  | requestOnly : AxiosFailure
  | setupFailure : AxiosFailure

/-- JS string coercion, as used when a value becomes an `Error` message. -/
def jsValToStr : JsVal → String
  | .undefined => "undefined"
  | .null => "null"
  | .bool true => "true"
  | .bool false => "false"
  | .num n => toString n
  | .str s => s
  | .arr _ => ""
  | .obj _ => "[object Object]"

/-- The try/catch logic of `submitPatientData` applied to the outcome of the
POST: success returns `response.data` raw; a failure with a response throws
`error.response.data.error || "Error registering information"`; a failure
with only a request throws `"No response was received"`; anything else
throws `"Error setting up request"`. -/
def submitRequest (outcome : Except AxiosFailure JsVal) : Except String JsVal :=
  match outcome with
  | .ok data => .ok data
  | .error (.withResponse data) =>
    .error (if jsTruthy (getField data "error") then jsValToStr (getField data "error")
            else "Error registering information")
  | .error .requestOnly => .error "No response was received"
  | .error .setupFailure => .error "Error setting up request"

/-- `submitPatientData` from the data layer: build the body from the patient
data, perform the POST (the `server` argument models the endpoint), and
normalize the outcome per the catch clauses. -/
def submitPatientData (pd : FormState) (server : JsVal → Except AxiosFailure JsVal) :
    Except String JsVal :=
  submitRequest (server (submitBody pd))

/-! ## `SearchPatientView` (frontend view) -/

/-- ASCII JavaScript whitespace, the characters `String.prototype.trim`
removes that can occur in a query typed into the search box (space, tab,
line feed, carriage return, vertical tab, form feed). -/
def isJsWhitespace (c : Char) : Bool :=
  c = ' ' || c = '\t' || c = '\n' || c = '\r' || c.toNat = 11 || c.toNat = 12

/-- `String.prototype.trim` on the character list of a string. -/
def jsTrimList (l : List Char) : List Char :=
  ((l.dropWhile isJsWhitespace).reverse.dropWhile isJsWhitespace).reverse

/-- The view's `emptyQuery` flag: `query.trim().length <= 0`. -/
def emptyQuery (q : String) : Bool :=
  decide ((jsTrimList q.data).length ≤ 0)

/-- The `disabled` attribute of the `Buscar` button is exactly `emptyQuery`. -/
def searchButtonDisabled (q : String) : Bool :=
  emptyQuery q

/-- Outcome of the injected `searchPatientsApiCall` as the view inspects it:
either a result list of previews, or an error whose optional `cause` carries
an optional `response.status` (no cause means the API contract changed;
a cause with no response status compares `undefined < 500`, which is false). -/
inductive ApiOut where
  | result : List Preview → ApiOut
  | apiError : Option (Option Nat) → ApiOut

/-- The view state `searchBtnClick` produces: the error message shown, the
patients list, and whether the network call was made. -/
structure SearchClickResult where
  errorMsg : String
  patients : List Preview
  apiCalled : Bool

/-- `searchBtnClick` from `SearchPatientView`: hide the error; on an empty
query show `ERROR: Por favor ingrese algo para buscar!` and return without
calling the API; otherwise call the API and either show a message derived
from the error's cause and status, or store the returned patients. -/
def searchBtnClick (q ty : String) (patients : List Preview)
    (api : String → String → ApiOut) : SearchClickResult :=
  if emptyQuery q then
    ⟨"ERROR: Por favor ingrese algo para buscar!", patients, false⟩
  else
    match api q ty with
    | .apiError cause =>
      ⟨(match cause with
        | some st =>
          if (match st with | some n => decide (n < 500) | none => false) then
            "ERROR: Búsqueda incorrecta, por favor ingresa todos los parámetros!"
          else
            "ERROR: Ha ocurrido un error interno, lo sentimos."
        | none => "ERROR: The API has changed!"), patients, true⟩
    | .result ps => ⟨"", ps, true⟩

/-! ## `PatientForm` validation (frontend view) -/

/-- `validateFormData` from `PatientForm`: reject a CUI whose length is not
13; reject an empty `names`, `surnames` or `birthDate` (JS falsiness);
then test `patientData.isWoman === null` — the form state has no `isWoman`
key (the gender field is `sex`), so this property read yields `undefined`
and the strict comparison with `null` is evaluated on it. -/
def validateFormData (pd : FormState) : Bool :=
  if pd.cui.length ≠ 13 then false
  else if decide (pd.names = "") then false
  else if decide (pd.surnames = "") then false
  else if decide (pd.birthDate = "") then false
  else if jsStrictEqNull (getField (formStateToJs pd) "isWoman") then false
  else true

/-- `handleSubmit` calls `submitPatientData` exactly when `validateFormData`
returns true; this flag records whether the call happens. -/
def handleSubmitCallsApi (pd : FormState) : Bool :=
  validateFormData pd

/-! ## Backend handler `GetGeneralStudentInfo` -/

/-- An HTTP response descriptor as the handlers build it: status code,
whether the CORS headers were attached, and the serialized body. -/
structure HttpResponse where
  statusCode : Nat
  cors : Bool
  body : String

/-- Modelled from the spec: the response-builder utility (`createResponse`
in the `utils` module, which is not among the sources here). Per the spec it
is a fluent helper assembling status code, CORS headers and body into a
response descriptor, with permissive CORS headers added on request. -/
structure ResponseBuilder where
  statusCode : Nat
  cors : Bool
  body : String

/-- Modelled from the spec: `createResponse()` starts an empty builder. -/
def createResponse : ResponseBuilder :=
  ⟨200, false, ""⟩

/-- Modelled from the spec: `.setStatusCode(n)`. -/
def ResponseBuilder.setStatusCode (b : ResponseBuilder) (n : Nat) : ResponseBuilder :=
  { b with statusCode := n }

/-- Modelled from the spec: `.addCORSHeaders()` attaches the permissive
CORS header set. -/
def ResponseBuilder.addCORSHeaders (b : ResponseBuilder) : ResponseBuilder :=
  { b with cors := true }

/-- Modelled from the spec: `.setBody(s)`. -/
def ResponseBuilder.setBody (b : ResponseBuilder) (s : String) : ResponseBuilder :=
  { b with body := s }

/-- Modelled from the spec: `.build()` produces the response descriptor. -/
def ResponseBuilder.build (b : ResponseBuilder) : HttpResponse :=
  ⟨b.statusCode, b.cors, b.body⟩

/-- `JSON.stringify(\x7bmessage: m\x7d)`. -/
def msgBody (m : String) : String :=
  "\x7b\x22message\x22:\x22" ++ m ++ "\x22\x7d"

/-- The serialized error placed in a 500 body (`JSON.stringify(error)`);
serialization is modelled as carrying the error's message. -/
def errorBody (m : String) : String := m

/-- Modelled from the spec: the data-mapper utility `mapToAPIStudentInfo`
(in the `utils` module, not among the sources here) converts a raw
`estudiante` row into the API-facing student-info shape; rows are carried
opaquely as strings and the mapping is represented as the identity on that
carrier. -/
def mapToAPIStudentInfo (row : String) : String := row

/-- What a handler invocation can end in: an HTTP response, or an uncaught
thrown error that terminates the invocation without a response. -/
inductive Outcome where
  | response : HttpResponse → Outcome
  | uncaught : String → Outcome

/-- Whether an outcome is an HTTP response (as opposed to an uncaught
throw). -/
def isResponse : Outcome → Bool
  | .response _ => true
  | .uncaught _ => false

/-- `event.pathParameters` when present; `id` is `none` when the `id`
property is absent. -/
structure PathParams where
  id : Option String

/-- The parts of the Lambda event the handler reads: the HTTP method and
`pathParameters` (which may itself be absent). -/
structure HandlerEvent where
  httpMethod : String
  pathParameters : Option PathParams

/-- The environment one invocation of the student-info handler runs
against: which of `getPgClient`, `client.connect()` and `client.query(...)`
throw (with what message), and the rows the query returns (carried opaquely
as strings). `client.end()` is assumed to succeed. -/
structure DbEnv where
  getPgClientFails : Option String
  connectFails : Option String
  queryFails : Option String
  rows : List String

/-- The shared 500 response of the handler's catch block. -/
def catch500 (m : String) : HttpResponse :=
  (((createResponse.setStatusCode 500).addCORSHeaders).setBody (errorBody m)).build

/-- The handler of `GET /patient/student/\x7bid\x7d`
(`get-general-student-info.mjs`), returning the outcome together with the
number of times `client.end()` ran in the `finally` block (the optional
chaining `client?.end()` skips it when `getPgClient` itself threw and
`client` was never assigned). The unsupported-method check throws before
the try block, so that throw is not caught. -/
def handler (event : HandlerEvent) (env : DbEnv) : Outcome × Nat :=
  if event.httpMethod ≠ "GET" then
    (.uncaught ("/patient/student/\x7bid\x7d only accepts GET method, you tried: "
       ++ event.httpMethod), 0)
  else
    match env.getPgClientFails with
    | some m => (.response (catch500 m), 0)
    | none =>
      match env.connectFails with
      | some m => (.response (catch500 m), 1)
      | none =>
        match event.pathParameters with
        | none =>
          (.response (catch500 "Cannot read properties of undefined (reading id)"), 1)
        | some pp =>
          if jsFalsyOptStr pp.id then
            (.response ⟨400, true, msgBody "Invalid request: No id supplied!"⟩, 1)
          else
            match env.queryFails with
            | some m => (.response (catch500 m), 1)
            | none =>
              if env.rows.length = 0 then
                (.response ((((createResponse.setStatusCode 404).addCORSHeaders).setBody
                  (msgBody "Invalid request: No student with the given ID found.")).build), 1)
              else
                (.response ((((createResponse.setStatusCode 200).addCORSHeaders).setBody
                  (mapToAPIStudentInfo (env.rows.headD ""))).build), 1)

/-! ## Spec-modelled backend endpoints

The handlers for `POST /patient` and `GET /patient/surgical-history/\x7bid\x7d`
are not among the sources here — only their integration tests are — so the
following definitions are written from the specification's words (and the
request/response shapes the integration tests exercise). -/

/-- A stored patient row: identifier, national ID code (CUI), given names,
surnames, sex, birth date. -/
structure StoredPatient where
  id : Nat
  cui : String
  nombres : String
  apellidos : String
  esMujer : Bool
  fechaNacimiento : String

/-- A patient-creation payload as POSTed to `/patient`; `cui` is `none`
when the payload carries no national ID. -/
structure CreatePayload where
  cui : Option String
  nombres : String
  apellidos : String
  esMujer : Bool
  fechaNacimiento : String

/-- A response of the creation endpoint: status, the `error` field of the
body when present, and the created patient's identifier when present. -/
structure CreateResponse where
  status : Nat
  errorMsg : Option String
  patientId : Option Nat

/-- Modelled from the spec: the handler of `POST /patient` (not among the
sources here). Per the spec: a payload missing the national ID yields 400
with message `CUI es requerido.`; a payload reusing an existing national ID
yields 409 with message `CUI ya existe.` and the uniqueness invariant on the
CUI is preserved (no second record is created); otherwise the patient is
stored and a retrievable identifier returned with success. -/
def createPatient (p : CreatePayload) (db : List StoredPatient) :
    CreateResponse × List StoredPatient :=
  match p.cui with
  | none => (⟨400, some "CUI es requerido.", none⟩, db)
  | some cui =>
    if db.any (fun s => s.cui = cui) then
      (⟨409, some "CUI ya existe.", none⟩, db)
    else
      let newId := db.length + 1
      (⟨200, none, some newId⟩,
       db ++ [⟨newId, cui, p.nombres, p.apellidos, p.esMujer, p.fechaNacimiento⟩])

/-- One surgical-history record, as the integration tests shape it. -/
structure Surgery where
  surgeryType : String
  surgeryYear : String
  complications : String

/-- A response of the surgical-history endpoint: status, the `message`
field of the body when present, and the surgical event data when present. -/
structure SurgicalResponse where
  status : Nat
  message : Option String
  surgicalEventData : Option (List Surgery)

/-- The 404 response shared by every failing surgical-history lookup. -/
def surgicalNotFound : SurgicalResponse :=
  ⟨404, some "No surgical history found for the provided ID.", none⟩

/-- Decimal parsing of a candidate patient identifier, digit by digit;
a non-digit makes the whole identifier malformed. -/
def parseDigitsAux : List Char → Nat → Option Nat
  | [], acc => some acc
  | c :: cs, acc =>
    if c.isDigit then parseDigitsAux cs (acc * 10 + (c.toNat - 48)) else none

/-- A path identifier parses iff it is a nonempty string of digits. -/
def parseId (s : String) : Option Nat :=
  match s.data with
  | [] => none
  | l => parseDigitsAux l 0

/-- Modelled from the spec: the handler of
`GET /patient/surgical-history/\x7bid\x7d` (not among the sources here).
Per the spec and its tests: a malformed identifier (one that does not parse
as a patient id), an identifier of no stored patient, or a patient with zero
recorded surgeries all yield 404 with message
`No surgical history found for the provided ID.`; a patient with at least
one recorded surgery yields 200 with the stored records. -/
def getSurgicalHistory (rawId : String) (db : List (Nat × List Surgery)) :
    SurgicalResponse :=
  match parseId rawId with
  | none => surgicalNotFound
  | some n =>
    match db.find? (fun e => e.1 = n) with
    | none => surgicalNotFound
    | some pr =>
      if pr.2.isEmpty then surgicalNotFound
      else ⟨200, none, some pr.2⟩

/-! ## Helper lemmas -/

/-- The preview `searchPatient` is expected to build from a raw record:
its `id`, and the `nombres` and `apellidos` joined by a single space. -/
def expectedPreview (r : RawPatient) : Preview :=
  ⟨r.id.getD "", r.nombres.getD "" ++ " " ++ r.apellidos.getD ""⟩

lemma mapRecord_ok_of_good (r : RawPatient)
    (h1 : jsFalsyOptStr r.id = false) (h2 : jsFalsyOptStr r.nombres = false)
    (h3 : jsFalsyOptStr r.apellidos = false) :
    mapRecord r = .ok (expectedPreview r) := by
  simp [mapRecord, expectedPreview, h1, h2, h3]

lemma mapRecords_ok_of_all (rows : List RawPatient)
    (h : ∀ r ∈ rows, jsFalsyOptStr r.id = false ∧ jsFalsyOptStr r.nombres = false ∧
      jsFalsyOptStr r.apellidos = false) :
    mapRecords rows = .ok (rows.map expectedPreview) := by
  induction rows with
  | nil => rfl
  | cons r rs ih =>
    obtain ⟨h1, h2, h3⟩ := h r (List.mem_cons_self r rs)
    have hr := mapRecord_ok_of_good r h1 h2 h3
    have hrs := ih (fun x hx => h x (List.mem_cons_of_mem r hx))
    simp [mapRecords, hr, hrs]

lemma mapRecord_error_of_bad (r : RawPatient)
    (h : jsFalsyOptStr r.id = true ∨ jsFalsyOptStr r.nombres = true ∨
      jsFalsyOptStr r.apellidos = true) :
    ∃ m, mapRecord r = .error m := by
  rcases h with h | h | h
  · exact ⟨"Received patient has no `id`!", by simp [mapRecord, h]⟩
  · cases hid : jsFalsyOptStr r.id
    · exact ⟨"Received patient has no `names`!", by simp [mapRecord, hid, h]⟩
    · exact ⟨"Received patient has no `id`!", by simp [mapRecord, hid]⟩
  · cases hid : jsFalsyOptStr r.id
    · cases hn : jsFalsyOptStr r.nombres
      · exact ⟨"Received patient has no `apellidos`!", by simp [mapRecord, hid, hn, h]⟩
      · exact ⟨"Received patient has no `names`!", by simp [mapRecord, hid, hn]⟩
    · exact ⟨"Received patient has no `id`!", by simp [mapRecord, hid]⟩

lemma mapRecords_error_of_bad (rows : List RawPatient)
    (h : ∃ r ∈ rows, jsFalsyOptStr r.id = true ∨ jsFalsyOptStr r.nombres = true ∨
      jsFalsyOptStr r.apellidos = true) :
    ∃ m, mapRecords rows = .error m := by
  induction rows with
  | nil => simp at h
  | cons r rs ih =>
    obtain ⟨x, hx, hbad⟩ := h
    rcases List.mem_cons.mp hx with hxr | hxrs
    · subst hxr
      obtain ⟨m, hm⟩ := mapRecord_error_of_bad x hbad
      exact ⟨m, by simp [mapRecords, hm]⟩
    · cases hmr : mapRecord r with
      | error m => exact ⟨m, by simp [mapRecords, hmr]⟩
      | ok p =>
        obtain ⟨m, hm⟩ := ih ⟨x, hxrs, hbad⟩
        exact ⟨m, by simp [mapRecords, hmr, hm]⟩

/-! ## Claim theorems -/

/-- Claim C1, counterexample: on an event with httpMethod `POST` (and a
benign environment) the student-info handler does not return an HTTP
response at all — the unsupported-method check throws before the try block,
so the invocation terminates with an uncaught exception, contradicting the
claim that unsupported methods get a 4xx/error response and that no
invocation terminates without a response. -/
theorem c1_unsupported_method_counterexample :
    isResponse (handler ⟨"POST", none⟩ ⟨none, none, none, []⟩).1 = false := rfl

/-- Claim C1 (amended): an event whose httpMethod is not GET makes the
handler throw an uncaught error (terminating the invocation without an HTTP
response), because the method check precedes the try block; every exception
raised inside the try block is caught and converted into a response, so
every invocation with the supported GET method returns an HTTP response. -/
theorem c1_method_and_catch_all :
    (∀ (ev : HandlerEvent) (env : DbEnv), ev.httpMethod ≠ "GET" →
      isResponse (handler ev env).1 = false)
    ∧ (∀ (ev : HandlerEvent) (env : DbEnv), ev.httpMethod = "GET" →
      isResponse (handler ev env).1 = true) := by
  constructor
  · intro ev env h
    unfold handler
    rw [if_pos h]
    rfl
  · intro ev env h
    unfold handler
    rw [if_neg (fun hc => hc h)]
    repeat' split
    all_goals rfl

/-- Witness for C1's amended theorem at concrete inputs: a PUT event ends
without a response; a GET event (here on the success path) ends in a
response. -/
theorem c1_method_and_catch_all_witness :
    isResponse (handler ⟨"PUT", none⟩ ⟨none, none, none, []⟩).1 = false
    ∧ isResponse (handler ⟨"GET", some ⟨some "7"⟩⟩ ⟨none, none, none, ["row"]⟩).1 = true :=
  ⟨c1_method_and_catch_all.1 ⟨"PUT", none⟩ ⟨none, none, none, []⟩ (by decide),
   c1_method_and_catch_all.2 ⟨"GET", some ⟨some "7"⟩⟩ ⟨none, none, none, ["row"]⟩ rfl⟩

/-- Claim C8: on every execution of the student-info handler that enters its
try block (httpMethod GET) and creates a database client (`getPgClient` does
not throw), `client.end()` runs exactly once before the handler returns —
on the success, 400, 404 and catch-all 500 paths alike; when `getPgClient`
itself throws and no client exists, the optional chaining skips the release. -/
theorem c8_connection_released_once :
    (∀ (ev : HandlerEvent) (env : DbEnv), ev.httpMethod = "GET" →
      env.getPgClientFails = none → (handler ev env).2 = 1)
    ∧ (∀ (ev : HandlerEvent) (env : DbEnv) (m : String), ev.httpMethod = "GET" →
      env.getPgClientFails = some m → (handler ev env).2 = 0) := by
  constructor
  · intro ev env h hg
    unfold handler
    rw [if_neg (fun hc => hc h), hg]
    repeat' split
    all_goals simp_all
  · intro ev env m h hg
    unfold handler
    rw [if_neg (fun hc => hc h), hg]

/-- Witness for C8 at concrete inputs: a GET invocation whose query throws
(catch-all 500 path) releases the connection exactly once, and one whose
`getPgClient` throws releases nothing. -/
theorem c8_connection_released_once_witness :
    (handler ⟨"GET", some ⟨some "5"⟩⟩ ⟨none, none, some "query boom", []⟩).2 = 1
    ∧ (handler ⟨"GET", some ⟨some "5"⟩⟩ ⟨some "no client", none, none, []⟩).2 = 0 :=
  ⟨c8_connection_released_once.1 ⟨"GET", some ⟨some "5"⟩⟩ ⟨none, none, some "query boom", []⟩ rfl rfl,
   c8_connection_released_once.2 ⟨"GET", some ⟨some "5"⟩⟩ ⟨some "no client", none, none, []⟩
     "no client" rfl rfl⟩

/-- Claim C2, counterexample: `checkCui`, on a successful server response,
returns the object `\x7bexists, cui\x7d`, which is not of the shape
`\x7bresult\x7d` or `\x7berror\x7d` — so not every exported client function
returns a `\x7bresult\x7d`-or-`\x7berror\x7d` object. -/
theorem c2_client_shape_counterexample :
    checkCui "1234567890123" (.ok (.obj [("exists", .bool true)]))
      = .ok (.obj [("exists", .bool true), ("cui", .str "1234567890123")])
    ∧ isResultOrErrorShape (.obj [("exists", .bool true), ("cui", .str "1234567890123")])
      = false :=
  ⟨rfl, rfl⟩

/-- Claim C2 (amended): `searchPatient`, for every input and server outcome,
returns an object of shape `\x7bresult\x7d` or `\x7berror\x7d` and never
throws; `checkCui` and `submitPatientData` throw on failure as their
documentation states, and on success return, respectively, an
`\x7bexists, cui\x7d` object and the raw server response data — not a
`\x7bresult\x7d` envelope. -/
theorem c2_client_contract :
    (∀ resp, isResultOrErrorShape (searchPatient resp) = true)
    ∧ (∀ (cui : String) (data : JsVal), checkCui cui (.ok data)
        = .ok (.obj [("exists", getField data "exists"), ("cui", .str cui)]))
    ∧ (∀ (cui e : String), checkCui cui (.error e) = .error "Error fetching CUI:")
    ∧ (∀ (pd : FormState) (server : JsVal → Except AxiosFailure JsVal),
        submitPatientData pd server = submitRequest (server (submitBody pd)))
    ∧ (∀ data : JsVal, submitRequest (.ok data) = .ok data)
    ∧ (∀ f : AxiosFailure, ∃ m, submitRequest (.error f) = .error m) := by
  refine ⟨?_, fun _ _ => rfl, fun _ _ => rfl, fun _ _ => rfl, fun _ => rfl, ?_⟩
  · intro resp
    cases resp with
    | error e => rfl
    | ok rows =>
      cases h : mapRecords rows with
      | error m => simp [searchPatient, isResultOrErrorShape, h]
      | ok ps => simp [searchPatient, isResultOrErrorShape, h]
  · intro f
    cases f with
    | withResponse data => exact ⟨_, rfl⟩
    | requestOnly => exact ⟨"No response was received", rfl⟩
    | setupFailure => exact ⟨"Error setting up request", rfl⟩

/-- Claim C7: for every server response to a patient search, `searchPatient`
returns a result whose elements are exactly the previews `\x7bid, names\x7d`
with `names` the record's `nombres` and `apellidos` joined by a space; and
whenever any returned record lacks `id`, `nombres` or `apellidos`,
`searchPatient` returns an `\x7berror\x7d` object, never a partially mapped
result. -/
theorem c7_search_patient_mapping :
    (∀ rows : List RawPatient,
      (∀ r ∈ rows, jsFalsyOptStr r.id = false ∧ jsFalsyOptStr r.nombres = false ∧
        jsFalsyOptStr r.apellidos = false) →
      searchPatient (.ok rows)
        = .obj [("result", .arr ((rows.map expectedPreview).map previewToJs))])
    ∧ (∀ rows : List RawPatient,
      (∃ r ∈ rows, jsFalsyOptStr r.id = true ∨ jsFalsyOptStr r.nombres = true ∨
        jsFalsyOptStr r.apellidos = true) →
      ∃ m, searchPatient (.ok rows) = .obj [("error", .str m)]) := by
  constructor
  · intro rows h
    simp [searchPatient, mapRecords_ok_of_all rows h]
  · intro rows h
    obtain ⟨m, hm⟩ := mapRecords_error_of_bad rows h
    exact ⟨m, by simp [searchPatient, hm]⟩

/-- Witness for C7 at concrete inputs: a complete record is mapped to its
preview; a record with no `id` makes `searchPatient` return an error
object. -/
theorem c7_search_patient_mapping_witness :
    searchPatient (.ok [⟨some "1", some "Juan", some "Perez"⟩])
      = .obj [("result", .arr (([(⟨some "1", some "Juan", some "Perez"⟩ : RawPatient)].map
          expectedPreview).map previewToJs))]
    ∧ ∃ m, searchPatient (.ok [⟨none, some "Juan", some "Perez"⟩])
      = .obj [("error", .str m)] :=
  ⟨c7_search_patient_mapping.1 [⟨some "1", some "Juan", some "Perez"⟩] (by decide),
   c7_search_patient_mapping.2 [⟨none, some "Juan", some "Perez"⟩] (by decide)⟩

/-- Claim C3, code-slip evaluation: a form whose gender has never been
selected (`sex` is still `null`, as the strict-null test on the real field
confirms) passes `validateFormData` and `handleSubmit` calls
`submitPatientData`, because the gender check reads `patientData.isWoman` —
a key the form state never has, so the read yields `undefined` and
`undefined === null` is false, leaving the gender requirement dead. -/
theorem c3_gender_check_dead :
    getField (formStateToJs ⟨"1234567890123", "Juan", "Perez", .null, "1990-01-01"⟩) "isWoman"
      = .undefined
    ∧ jsStrictEqNull (getField
        (formStateToJs ⟨"1234567890123", "Juan", "Perez", .null, "1990-01-01"⟩) "sex") = true
    ∧ validateFormData ⟨"1234567890123", "Juan", "Perez", .null, "1990-01-01"⟩ = true
    ∧ handleSubmitCallsApi ⟨"1234567890123", "Juan", "Perez", .null, "1990-01-01"⟩ = true :=
  ⟨rfl, rfl, rfl, rfl⟩

/-- Claim C9: the body `submitPatientData` POSTs carries
`esMujer = "F"` whenever `patientData.sex` is truthy — including the string
`"M"` set by the Masculino radio button — and carries `esMujer = "M"`
exactly when `sex` is falsy (null or empty), so a patient registered as
male is transmitted as female. -/
theorem c9_esmujer_inversion :
    ∀ pd : FormState,
      (getField (submitBody pd) "esMujer" = .str (if jsTruthy pd.sex then "F" else "M"))
      ∧ (getField (submitBody pd) "esMujer" = .str "M" ↔ jsTruthy pd.sex = false)
      ∧ (getField (submitBody { pd with sex := JsVal.str "M" }) "esMujer" = .str "F")
      ∧ (∀ server, submitPatientData pd server = submitRequest (server (submitBody pd))) := by
  intro pd
  refine ⟨rfl, ?_, rfl, fun _ => rfl⟩
  cases hs : jsTruthy pd.sex with
  | true =>
    constructor
    · intro h
      have : getField (submitBody pd) "esMujer" = .str "F" := by
        simp [submitBody, getField, lookupKey, hs]
      rw [this] at h
      exact absurd (JsVal.str.inj h) (by decide)
    · intro h
      exact absurd h (by decide)
  | false =>
    constructor
    · intro _
      rfl
    · intro _
      simp [submitBody, getField, lookupKey, hs]

/-- Witness for C9 at a concrete input: a male patient
(`sex = "M"`, truthy) is sent with `esMujer = "F"`. -/
theorem c9_esmujer_inversion_witness :
    getField (submitBody ⟨"1234567890123", "Juan", "Perez", .str "M", "1990-01-01"⟩) "esMujer"
      = .str (if jsTruthy (JsVal.str "M") then "F" else "M")
    ∧ (getField (submitBody ⟨"1234567890123", "Juan", "Perez", .null, "1990-01-01"⟩) "esMujer"
        = .str "M" ↔ jsTruthy JsVal.null = false) :=
  ⟨(c9_esmujer_inversion ⟨"1234567890123", "Juan", "Perez", .str "M", "1990-01-01"⟩).1,
   (c9_esmujer_inversion ⟨"1234567890123", "Juan", "Perez", .null, "1990-01-01"⟩).2.1⟩

/-- Claim C10: a query that is empty or all whitespace makes `emptyQuery`
true, so the search button is disabled; and should `searchBtnClick` run
anyway on such a query, it sets the error message
`ERROR: Por favor ingrese algo para buscar!` and returns with the patients
list unchanged and without invoking `searchPatientsApiCall`. -/
theorem c10_empty_query_no_search :
    (∀ q : String, (∀ c ∈ q.data, isJsWhitespace c = true) → emptyQuery q = true)
    ∧ (∀ q : String, emptyQuery q = true → searchButtonDisabled q = true)
    ∧ (∀ (q ty : String) (ps : List Preview) (api : String → String → ApiOut),
        emptyQuery q = true →
        searchBtnClick q ty ps api
          = ⟨"ERROR: Por favor ingrese algo para buscar!", ps, false⟩) := by
  refine ⟨?_, fun q h => h, ?_⟩
  · intro q h
    have h1 : q.data.dropWhile isJsWhitespace = [] :=
      List.dropWhile_eq_nil_iff.mpr (fun x hx => h x hx)
    simp [emptyQuery, jsTrimList, h1]
  · intro q ty ps api h
    simp [searchBtnClick, h]

/-- Witness for C10 at a concrete input: the single-space query is empty,
disables the button, and clicking would show the message and skip the API
call. -/
theorem c10_empty_query_no_search_witness :
    emptyQuery " " = true
    ∧ searchButtonDisabled " " = true
    ∧ searchBtnClick " " "Nombres" [] (fun _ _ => ApiOut.result [⟨"1", "X Y"⟩])
      = ⟨"ERROR: Por favor ingrese algo para buscar!", [], false⟩ :=
  ⟨c10_empty_query_no_search.1 " " (by decide),
   c10_empty_query_no_search.2.1 " " (by decide),
   c10_empty_query_no_search.2.2 " " "Nombres" [] (fun _ _ => ApiOut.result [⟨"1", "X Y"⟩])
     (by decide)⟩

/-- Claim C4: for every patient-creation payload with no CUI, the
`POST /patient` endpoint (modelled from the spec) returns status 400 with
`CUI es requerido.` as the error message of the response body, and stores
nothing. -/
theorem c4_missing_cui_returns_400 :
    ∀ (p : CreatePayload) (db : List StoredPatient), p.cui = none →
      (createPatient p db).1 = ⟨400, some "CUI es requerido.", none⟩
      ∧ (createPatient p db).2 = db := by
  intro p db h
  simp [createPatient, h]

/-- Witness for C4 at a concrete input: a payload without a CUI against an
empty store. -/
theorem c4_missing_cui_returns_400_witness :
    (createPatient ⟨none, "Juan", "Pérez", false, "1990-01-01"⟩ []).1
      = ⟨400, some "CUI es requerido.", none⟩
    ∧ (createPatient ⟨none, "Juan", "Pérez", false, "1990-01-01"⟩ []).2 = [] :=
  c4_missing_cui_returns_400 ⟨none, "Juan", "Pérez", false, "1990-01-01"⟩ [] rfl

/-- Claim C5: for every patient-creation payload whose CUI equals the CUI
of an already-stored patient, the `POST /patient` endpoint (modelled from
the spec) returns status 409 with `CUI ya existe.` as the error message of
the response body, and the store is unchanged — no second record is
created. -/
theorem c5_duplicate_cui_returns_409 :
    ∀ (p : CreatePayload) (db : List StoredPatient) (c : String), p.cui = some c →
      db.any (fun s => s.cui = c) = true →
      (createPatient p db).1 = ⟨409, some "CUI ya existe.", none⟩
      ∧ (createPatient p db).2 = db := by
  intro p db c h hdup
  simp [createPatient, h, hdup]

/-- Witness for C5 at a concrete input: re-submitting the CUI of the one
stored patient. -/
theorem c5_duplicate_cui_returns_409_witness :
    (createPatient ⟨some "1234567890123", "Carlos", "González", false, "1985-05-05"⟩
        [⟨1, "1234567890123", "Juan", "Pérez", false, "1990-01-01"⟩]).1
      = ⟨409, some "CUI ya existe.", none⟩
    ∧ (createPatient ⟨some "1234567890123", "Carlos", "González", false, "1985-05-05"⟩
        [⟨1, "1234567890123", "Juan", "Pérez", false, "1990-01-01"⟩]).2
      = [⟨1, "1234567890123", "Juan", "Pérez", false, "1990-01-01"⟩] :=
  c5_duplicate_cui_returns_409
    ⟨some "1234567890123", "Carlos", "González", false, "1985-05-05"⟩
    [⟨1, "1234567890123", "Juan", "Pérez", false, "1990-01-01"⟩]
    "1234567890123" rfl (by decide)

/-- Claim C6: every surgical-history lookup on a malformed identifier, on
an identifier with no stored patient, or on a patient with zero recorded
surgeries returns status 404 with message
`No surgical history found for the provided ID.` (endpoint modelled from
the spec). -/
theorem c6_surgical_history_404 :
    (∀ (rawId : String) (db : List (Nat × List Surgery)), parseId rawId = none →
      getSurgicalHistory rawId db
        = ⟨404, some "No surgical history found for the provided ID.", none⟩)
    ∧ (∀ (rawId : String) (db : List (Nat × List Surgery)) (n : Nat),
      parseId rawId = some n → db.find? (fun e => e.1 = n) = none →
      getSurgicalHistory rawId db
        = ⟨404, some "No surgical history found for the provided ID.", none⟩)
    ∧ (∀ (rawId : String) (db : List (Nat × List Surgery)) (n : Nat)
        (pr : Nat × List Surgery),
      parseId rawId = some n → db.find? (fun e => e.1 = n) = some pr → pr.2 = [] →
      getSurgicalHistory rawId db
        = ⟨404, some "No surgical history found for the provided ID.", none⟩) := by
  refine ⟨?_, ?_, ?_⟩
  · intro rawId db h
    simp [getSurgicalHistory, surgicalNotFound, h]
  · intro rawId db n h hfind
    simp [getSurgicalHistory, surgicalNotFound, h, hfind]
  · intro rawId db n pr h hfind hempty
    simp [getSurgicalHistory, surgicalNotFound, h, hfind, hempty]

/-- Witness for C6 at concrete inputs: a non-numeric identifier, an unknown
identifier, and a patient stored with zero surgeries each give the 404. -/
theorem c6_surgical_history_404_witness :
    getSurgicalHistory "abc" []
      = ⟨404, some "No surgical history found for the provided ID.", none⟩
    ∧ getSurgicalHistory "999999" []
      = ⟨404, some "No surgical history found for the provided ID.", none⟩
    ∧ getSurgicalHistory "5" [(5, [])]
      = ⟨404, some "No surgical history found for the provided ID.", none⟩ :=
  ⟨c6_surgical_history_404.1 "abc" [] (by decide),
   c6_surgical_history_404.2.1 "999999" [] 999999 (by decide) rfl,
   c6_surgical_history_404.2.2 "5" [(5, [])] 5 (5, []) (by decide) rfl rfl⟩

end Sanitas
